import Mathlib

/-!
Shallow embedding of the propositional-logic core of the rk_os repository
(src/logic/propositional.py, src/logic/truth_tables.py, src/logic/tautology.py,
src/logic/equivalence.py).

The Python code evaluates expression strings by textual substitution followed by
a call to the Python builtin eval with a restricted environment.  We embed:
  * Python str.replace / str.strip on strings (modelled on the character list),
  * the fragment of Python expression syntax reachable from the substituted
    strings (identifiers, keywords and/or/not, parentheses); any other
    character is a SyntaxError, adjacent identifiers are a SyntaxError, and a
    name that is absent from the evaluation environment is a NameError —
    exactly the Python behaviour on these inputs (Python parses the whole string
    before evaluating, so syntax errors precede name errors),
  * the engine functions themselves, returning Except to model raised
    exceptions, with Python float arithmetic modelled as exact rationals and
    timestamp fields omitted (they carry no logical content).
Variable dictionaries are modelled as association lists in insertion order
(Python dicts iterate in insertion order); the engine builds them with
dict(zip(variables, combination)), so for duplicate-free variable lists the
association list is exactly the dict.
-/

/-- Python str.replace on character lists: replace every non-overlapping
occurrence of pat, scanning left to right.  The fuel argument is the length of
the scanned list; each step consumes at least one character, so the fuel never
runs out on the initial call. -/
def pyReplaceAux (pat rep : List Char) : Nat → List Char → List Char
  | 0, l => l
  | _ + 1, [] => []
  | fuel + 1, c :: cs =>
    if pat ≠ [] ∧ pat.isPrefixOf (c :: cs) then
      rep ++ pyReplaceAux pat rep fuel ((c :: cs).drop pat.length)
    else
      c :: pyReplaceAux pat rep fuel cs

/-- Python str.replace (all occurrences, left to right, non-overlapping).
The Python behaviour for an empty pattern is never exercised by the engine; we
return the string unchanged in that case. -/
def pyReplace (s pat rep : String) : String :=
  String.mk (pyReplaceAux pat.data rep.data s.data.length s.data)

/-- Characters stripped by Python str.strip() with no argument. -/
def pySpace (c : Char) : Bool :=
  c = ' ' ∨ c = '\t' ∨ c = '\n' ∨ c = '\r'

/-- Python str.strip(): drop whitespace from both ends. -/
def pyStrip (s : String) : String :=
  String.mk (((s.data.dropWhile pySpace).reverse.dropWhile pySpace).reverse)

/-- Tokens of the Python expression fragment reachable from the substituted
strings of the engine. -/
inductive PyTok where
  | name : String → PyTok
  | lpar : PyTok
  | rpar : PyTok
deriving DecidableEq

/-- A character that may continue a Python identifier. -/
def pyIdentChar (c : Char) : Bool :=
  c.isAlpha ∨ c.isDigit ∨ c = '_'

/-- A character that may start a Python identifier. -/
def pyIdentStart (c : Char) : Bool :=
  c.isAlpha ∨ c = '_'

/-- Tokenizer loop for the Python fragment, structurally recursive on a fuel
argument; every step consumes at least one character, so fuel = length of the
character list (supplied by pyTokenize) never runs out and the fuel-exhaustion
branch is unreachable.  Any character outside identifiers, parentheses and
spaces yields a SyntaxError: on the strings the engine builds, the only such
characters come from the textual IMPLIES → "->" and BICONDITIONAL → "<->"
rewrites, and those operator sequences are syntax errors in Python as well. -/
def pyTokenizeAux : Nat → List Char → Except String (List PyTok)
  | _, [] => .ok []
  | 0, _ :: _ => .error "SyntaxError: invalid syntax"
  | fuel + 1, c :: cs =>
    if pySpace c then pyTokenizeAux fuel cs
    else if c = '(' then do
      let ts ← pyTokenizeAux fuel cs
      .ok (PyTok.lpar :: ts)
    else if c = ')' then do
      let ts ← pyTokenizeAux fuel cs
      .ok (PyTok.rpar :: ts)
    else if pyIdentStart c then do
      let ts ← pyTokenizeAux fuel (cs.dropWhile pyIdentChar)
      .ok (PyTok.name (String.mk (c :: cs.takeWhile pyIdentChar)) :: ts)
    else
      .error "SyntaxError: invalid syntax"

/-- Tokenizer entry point. -/
def pyTokenize (l : List Char) : Except String (List PyTok) :=
  pyTokenizeAux l.length l

/-- Abstract syntax of the Python boolean-expression fragment. -/
inductive PyExpr where
  | pvar : String → PyExpr
  | pnot : PyExpr → PyExpr
  | pand : PyExpr → PyExpr → PyExpr
  | por : PyExpr → PyExpr → PyExpr

/-- The Python keywords of the fragment; they can never be identifiers. -/
def pyKeyword (s : String) : Bool :=
  s = "and" ∨ s = "or" ∨ s = "not"

mutual

/-- or_test := and_test ("or" and_test)* -/
def pyParseOr : Nat → List PyTok → Except String (PyExpr × List PyTok)
  | 0, _ => .error "SyntaxError: invalid syntax"
  | fuel + 1, ts => do
    let (e, rest) ← pyParseAnd fuel ts
    pyParseOrRest fuel e rest

def pyParseOrRest : Nat → PyExpr → List PyTok → Except String (PyExpr × List PyTok)
  | 0, _, _ => .error "SyntaxError: invalid syntax"
  | fuel + 1, acc, ts =>
    match ts with
    | PyTok.name "or" :: rest => do
      let (e, rest2) ← pyParseAnd fuel rest
      pyParseOrRest fuel (PyExpr.por acc e) rest2
    | _ => .ok (acc, ts)

/-- and_test := not_test ("and" not_test)* -/
def pyParseAnd : Nat → List PyTok → Except String (PyExpr × List PyTok)
  | 0, _ => .error "SyntaxError: invalid syntax"
  | fuel + 1, ts => do
    let (e, rest) ← pyParseNot fuel ts
    pyParseAndRest fuel e rest

def pyParseAndRest : Nat → PyExpr → List PyTok → Except String (PyExpr × List PyTok)
  | 0, _, _ => .error "SyntaxError: invalid syntax"
  | fuel + 1, acc, ts =>
    match ts with
    | PyTok.name "and" :: rest => do
      let (e, rest2) ← pyParseNot fuel rest
      pyParseAndRest fuel (PyExpr.pand acc e) rest2
    | _ => .ok (acc, ts)

/-- not_test := "not" not_test | atom -/
def pyParseNot : Nat → List PyTok → Except String (PyExpr × List PyTok)
  | 0, _ => .error "SyntaxError: invalid syntax"
  | fuel + 1, ts =>
    match ts with
    | PyTok.name "not" :: rest => do
      let (e, rest2) ← pyParseNot fuel rest
      .ok (PyExpr.pnot e, rest2)
    | _ => pyParseAtom fuel ts

/-- atom := NAME | "(" or_test ")" -/
def pyParseAtom : Nat → List PyTok → Except String (PyExpr × List PyTok)
  | 0, _ => .error "SyntaxError: invalid syntax"
  | fuel + 1, ts =>
    match ts with
    | PyTok.name s :: rest =>
      if pyKeyword s then .error "SyntaxError: invalid syntax"
      else .ok (PyExpr.pvar s, rest)
    | PyTok.lpar :: rest => do
      let (e, rest2) ← pyParseOr fuel rest
      match rest2 with
      | PyTok.rpar :: rest3 => .ok (e, rest3)
      | _ => .error "SyntaxError: invalid syntax"
    | _ => .error "SyntaxError: invalid syntax"

end

/-- Name lookup in the eval environment (the code passes explicit globals with
empty builtins, so a missing name is a NameError). -/
def pyLookup (env : List (String × Bool)) (n : String) : Except String Bool :=
  match env.find? (fun p => p.1 = n) with
  | some p => .ok p.2
  | none => .error ("NameError: name " ++ n ++ " is not defined")

/-- Evaluation of the parsed fragment.  On booleans, Python and/or/not return
booleans, left operand first, with short-circuiting. -/
def pyEvalExpr (env : List (String × Bool)) : PyExpr → Except String Bool
  | PyExpr.pvar n => pyLookup env n
  | PyExpr.pnot a => do
    let x ← pyEvalExpr env a
    .ok (!x)
  | PyExpr.pand a b => do
    let x ← pyEvalExpr env a
    if x then pyEvalExpr env b else .ok false
  | PyExpr.por a b => do
    let x ← pyEvalExpr env a
    if x then .ok true else pyEvalExpr env b

/-- Python eval(s, env) on the embedded fragment: full parse first (Python
compiles the string before executing it), then evaluation; trailing tokens
after a complete expression are a SyntaxError, as is an empty string. -/
def pyEval (s : String) (env : List (String × Bool)) : Except String Bool := do
  let toks ← pyTokenize s.data
  if toks = [] then .error "SyntaxError: invalid syntax"
  else
    let (e, rest) ← pyParseOr (8 * toks.length + 8) toks
    if rest = [] then pyEvalExpr env e
    else .error "SyntaxError: invalid syntax"

/-! ## itertools.product([True, False], repeat=n)

Both truth-table generators enumerate assignments with
itertools.product([True, False], repeat=n): the first variable varies slowest
and True precedes False in every position. -/

/-- Embedding of list(itertools.product([True, False], repeat=n)). -/
def boolProduct : Nat → List (List Bool)
  | 0 => [[]]
  | n + 1 =>
    ((boolProduct n).map (fun l => true :: l)) ++
      ((boolProduct n).map (fun l => false :: l))

/-- The variable-substitution loop shared by both evaluators:
`processed = processed.replace(var, str(value).lower())` for each binding, in
dict order.  str(True).lower() is the string "true" and str(False).lower() is
"false". -/
def substituteVariables (expression : String) (vars : List (String × Bool)) : String :=
  vars.foldl
    (fun acc vb => pyReplace acc vb.1 (if vb.2 then "true" else "false")) expression

/-- Spec-side description of the canonical enumeration order (claim C5): row i
of the enumeration assigns variable j (0-based, left to right) true exactly
when bit (n-1-j) of i is 0 — binary counting from all-true (i = 0) to
all-false (i = 2^n - 1), the first variable toggling slowest and true ordered
before false at every position. -/
def natToRow (n i : Nat) : List Bool :=
  (List.range n).map (fun j => decide (i / 2 ^ (n - 1 - j) % 2 = 0))

/-! ## PropositionalLogicEngine (src/logic/propositional.py) -/

namespace PropositionalLogicEngine

/-- evaluate_and: `operand1 and operand2`. -/
def evaluate_and (operand1 operand2 : Bool) : Bool :=
  operand1 && operand2

/-- evaluate_or: `operand1 or operand2`. -/
def evaluate_or (operand1 operand2 : Bool) : Bool :=
  operand1 || operand2

/-- evaluate_not: `not operand`. -/
def evaluate_not (operand : Bool) : Bool :=
  !operand

/-- evaluate_implies: `not antecedent or consequent`. -/
def evaluate_implies (antecedent consequent : Bool) : Bool :=
  !antecedent || consequent

/-- evaluate_biconditional:
`(operand1 and operand2) or (not operand1 and not operand2)`. -/
def evaluate_biconditional (operand1 operand2 : Bool) : Bool :=
  (operand1 && operand2) || (!operand1 && !operand2)

/-- preprocess_expression (source name _preprocess_expression): strip, then replace the unicode aliases by the
keyword operators (dict iteration in insertion order). -/
def preprocess_expression (expression : String) : String :=
  let p := pyStrip expression
  let p := pyReplace p "∧" "AND"
  let p := pyReplace p "∨" "OR"
  let p := pyReplace p "¬" "NOT"
  let p := pyReplace p "→" "IMPLIES"
  let p := pyReplace p "↔" "BICONDITIONAL"
  p

/-- evaluate_expression: preprocess, substitute variable values textually,
rewrite AND/OR/NOT to Python keywords (IMPLIES and BICONDITIONAL are left in
place by this module), then eval with empty globals
(`eval(processed, {"__builtins__": {}}, {})`). -/
def evaluate_expression (expression : String) (vars : List (String × Bool)) :
    Except String Bool :=
  let p := preprocess_expression expression
  let p := substituteVariables p vars
  let p := pyReplace p "AND" "and"
  let p := pyReplace p "OR" "or"
  let p := pyReplace p "NOT" "not"
  pyEval p []

/-- One row of PropositionalLogicEngine.generate_truth_table: the assignment
tuple, the result (None when evaluation raised), and the stored error text. -/
structure PLRow where
  combination : List Bool
  result : Option Bool
  error : Option String
deriving DecidableEq

/-- The dict returned by PropositionalLogicEngine.generate_truth_table. -/
structure PLTable where
  vars : List String
  expression : String
  combinations : Nat
  results : List PLRow
deriving DecidableEq

/-- generate_truth_table: no input validation; enumerate the combinations and
evaluate each, storing a None result on a per-row exception.  Total: every
exception is caught inside the loop. -/
def generate_truth_table (vars : List String) (expression : String) : PLTable :=
  let combos := boolProduct vars.length
  let results := combos.map (fun combination =>
    match evaluate_expression expression (vars.zip combination) with
    | .ok b => PLRow.mk combination (some b) none
    | .error e => PLRow.mk combination none (some e))
  PLTable.mk vars expression combos.length results

/-- detect_tautology:
Python all() over the result fields that are not None —
note the vacuous truth of all() when every row has a None result. -/
def detect_tautology (expression : String) (vars : List String) : Bool :=
  let table := generate_truth_table vars expression
  (table.results.filterMap (fun r => r.result)).all (fun b => b)

/-- detect_contradiction:
Python all() of the negations of the result fields that are not None. -/
def detect_contradiction (expression : String) (vars : List String) : Bool :=
  let table := generate_truth_table vars expression
  (table.results.filterMap (fun r => r.result)).all (fun b => !b)

/-- One operations_history entry written by _log_operation (the timestamp
field is omitted from the model). -/
structure LogEntry where
  operator : String
  operands : List Bool
  result : Bool
deriving DecidableEq

/-- log_operation (source name _log_operation): appends the entry to
operations_history — a plain append with no capacity check and no eviction. -/
def log_operation (operations_history : List LogEntry) (entry : LogEntry) :
    List LogEntry :=
  operations_history ++ [entry]

/-- The history after k operations have been logged on a fresh engine
(operations_history starts as the empty list in __init__). -/
def history_after (entry : LogEntry) (k : Nat) : List LogEntry :=
  (List.range k).foldl (fun h _ => log_operation h entry) []

end PropositionalLogicEngine

/-! ## TruthTableGenerator (src/logic/truth_tables.py) -/

namespace TruthTableGenerator

/-- evaluate_expression (source name _evaluate_expression): substitute variable values textually, rewrite the
operator keywords (dict order: AND, OR, NOT, IMPLIES, BICONDITIONAL — the last
two become the character sequences "->" and "<->", which Python cannot parse),
then eval with globals binding only __builtins__ (empty), True and False. -/
def evaluate_expression (expression : String) (vars : List (String × Bool)) :
    Except String Bool :=
  let p := substituteVariables expression vars
  let p := pyReplace p "AND" "and"
  let p := pyReplace p "OR" "or"
  let p := pyReplace p "NOT" "not"
  let p := pyReplace p "IMPLIES" "->"
  let p := pyReplace p "BICONDITIONAL" "<->"
  pyEval p [("True", true), ("False", false)]

/-- One entry of the results list built by generate_table: the combination,
the result (None when evaluation raised), the stored error text, and the row
index. -/
structure TTRow where
  combination : List Bool
  result : Option Bool
  error : Option String
  row_index : Nat
deriving DecidableEq

/-- The dict returned by generate_table (timestamps omitted).  The errors list
holds the rows whose evaluation raised, in order. -/
structure TruthTable where
  vars : List String
  expression : String
  combinations : Nat
  results : List TTRow
  errors : List TTRow
deriving DecidableEq

/-- One loop iteration of generate_table at (row index, combination): the
expression is evaluated against dict(zip(variables, combination)); on success
the row stores the result, on an exception it stores a None result and the
error text. -/
def evalRow (vars : List String) (expression : String) (ic : Nat × List Bool) : TTRow :=
  match evaluate_expression expression (vars.zip ic.2) with
  | .ok b => TTRow.mk ic.2 (some b) none ic.1
  | .error e => TTRow.mk ic.2 none (some e) ic.1

/-- The results list built by generate_table: one entry per enumerated
combination, in enumeration order. -/
def tableRows (vars : List String) (expression : String) : List TTRow :=
  (boolProduct vars.length).enum.map (evalRow vars expression)

/-- generate_table: validation first (`if not variables or not expression:
raise ValueError(...)`), then one results entry per combination, catching the
per-row evaluation exception and storing a None result for it; the errors
field collects the rows that errored. -/
def generate_table (vars : List String) (expression : String) :
    Except String TruthTable :=
  if vars = [] ∨ expression = "" then
    .error "Variables list and expression cannot be empty"
  else
    let results := tableRows vars expression
    .ok (TruthTable.mk vars expression (boolProduct vars.length).length results
      (results.filter (fun r => r.result = none)))

end TruthTableGenerator

/-- Spec-side row check for C6: a row of the table stores the outcome of
evaluating the expression on its own combination — the boolean result and no
error on success, a null result and the stored error text on failure. -/
def rowStoresOutcome (vars : List String) (expression : String)
    (r : TruthTableGenerator.TTRow) : Bool :=
  match TruthTableGenerator.evaluate_expression expression (vars.zip r.combination) with
  | .ok b => r.result == some b && r.error == none
  | .error e => r.result == none && r.error == some e

/-! ## TautologyDetector (src/logic/tautology.py) -/

namespace TautologyDetector

/-- The detection record built by detect_tautology / detect_contradiction
(expression, variables and timestamps omitted; truth_table_results is the list
of non-None results in row order). -/
structure DetectionResult where
  is_tautology : Bool
  is_contradiction : Bool
  combinations_checked : Nat
  truth_table_results : List Bool
deriving DecidableEq

/-- detect_tautology: generate the table, then scan the rows: a non-None False
result clears all_true, a non-None True result clears all_false;
is_tautology = all_true with at least one non-None row, and
is_contradiction = all_false with at least one non-None row. -/
def detect_tautology (expression : String) (vars : List String) :
    Except String DetectionResult := do
  let table ← TruthTableGenerator.generate_table vars expression
  let nonNull := table.results.filterMap (fun r => r.result)
  let all_true := !(nonNull.any (fun b => !b))
  let all_false := !(nonNull.any (fun b => b))
  let is_tautology := all_true && !nonNull.isEmpty
  let is_contradiction := all_false && !nonNull.isEmpty
  .ok (DetectionResult.mk is_tautology is_contradiction table.combinations nonNull)

/-- detect_contradiction: same scan, but only a non-None True result mutates
the flags (all_false cleared, any_true set); is_contradiction = all_false with
at least one non-None row, is_tautology = not any_true with at least one
non-None row. -/
def detect_contradiction (expression : String) (vars : List String) :
    Except String DetectionResult := do
  let table ← TruthTableGenerator.generate_table vars expression
  let nonNull := table.results.filterMap (fun r => r.result)
  let all_false := !(nonNull.any (fun b => b))
  let any_true := nonNull.any (fun b => b)
  let is_contradiction := all_false && !nonNull.isEmpty
  let is_tautology := !any_true && !nonNull.isEmpty
  .ok (DetectionResult.mk is_tautology is_contradiction table.combinations nonNull)

end TautologyDetector

/-! ## EquivalenceChecker (src/logic/equivalence.py) -/

namespace EquivalenceChecker

/-- One entry of the differences list. -/
structure EqDifference where
  combination : Nat
  expr1_result : Option Bool
  expr2_result : Option Bool
deriving DecidableEq

/-- The record returned by check_equivalence (expressions, variables and
timestamps omitted; confidence is a Python float, modelled as an exact
rational — all values that arise are dyadic, so no rounding occurs for any
feasible table size). -/
structure CheckResult where
  are_equivalent : Bool
  confidence_level : ℚ
  differences_found : Nat
  differences : List EqDifference
  combinations_checked : Nat
deriving DecidableEq

/-- The default row used to model Python list indexing inside the comparison
loop (the indexing never actually falls outside the lists: both tables carry
one row per combination). -/
def dfltRow : TruthTableGenerator.TTRow := TruthTableGenerator.TTRow.mk [] none none 0

/-- The loop condition of check_equivalence at index i:
`result1 != result2 and result1 is not None and result2 is not None`. -/
def diffCond (res1 res2 : List TruthTableGenerator.TTRow) (i : Nat) : Bool :=
  decide ((res1.getD i dfltRow).result ≠ (res2.getD i dfltRow).result
    ∧ (res1.getD i dfltRow).result ≠ none
    ∧ (res2.getD i dfltRow).result ≠ none)

/-- The difference record appended for index i. -/
def mkDiff (res1 res2 : List TruthTableGenerator.TTRow) (i : Nat) : EqDifference :=
  EqDifference.mk i (res1.getD i dfltRow).result (res2.getD i dfltRow).result

/-- One iteration of the comparison loop of check_equivalence: when the
condition holds the equivalent flag is cleared and the difference appended,
otherwise the state is unchanged. -/
def compareStep (res1 res2 : List TruthTableGenerator.TTRow)
    (st : Bool × List EqDifference) (i : Nat) : Bool × List EqDifference :=
  if diffCond res1 res2 i then (false, st.2 ++ [mkDiff res1 res2 i]) else st

/-- The comparison loop of check_equivalence:
`for i in range(len(table1.results))` over the state (equivalent,
differences), starting from (True, []). -/
def compareLoop (res1 res2 : List TruthTableGenerator.TTRow) :
    Bool × List EqDifference :=
  (List.range res1.length).foldl (compareStep res1 res2) (true, [])

/-- check_equivalence: generate both tables, run the comparison loop, then
`confidence = (matched / total) * 100 if total > 0 else 0` with
matched = total - len(differences). -/
def check_equivalence (expr1 expr2 : String) (vars : List String) :
    Except String CheckResult := do
  let table1 ← TruthTableGenerator.generate_table vars expr1
  let table2 ← TruthTableGenerator.generate_table vars expr2
  let st := compareLoop table1.results table2.results
  let equivalent := st.1
  let differences := st.2
  let total := table1.results.length
  let matched := total - differences.length
  let confidence : ℚ := if total > 0 then ((matched : ℚ) / (total : ℚ)) * 100 else 0
  .ok (CheckResult.mk equivalent confidence differences.length differences total)

/-- Specification-side characterization of the differences list built by
check_equivalence (for the amended C4): exactly the indices at which both
results are non-None and unequal, in index order, with the two results
recorded. -/
def specDifferences (res1 res2 : List TruthTableGenerator.TTRow) : List EqDifference :=
  ((List.range res1.length).filter (diffCond res1 res2)).map (mkDiff res1 res2)

end EquivalenceChecker

/-! Claim theorems. -/

/-- C1: the claim states that evaluating the expression string over an
assignment yields the standard connective semantics (for all booleans a, b:
"a AND b" evaluates to a AND b, "a OR b" to a OR b, "NOT a" to NOT a,
"a IMPLIES b" to NOT a OR b, "a BICONDITIONAL b" to a == b).  The code
cannot return any boolean for these inputs: variables are substituted as the
lowercase texts "true"/"false", which are undefined names in the restricted
eval environment of both evaluators (propositional.py passes empty globals,
truth_tables.py binds only the capitalised "True"/"False"), so AND/OR/NOT
expressions raise NameError, and IMPLIES/BICONDITIONAL are either left in
place (propositional.py) or rewritten to "->"/"<->" (truth_tables.py), both
syntax errors.  The operand-level evaluate_implies does implement the claimed
semantics, which is why the claim is the evident intent and the substitution a
slip. -/
theorem C1_expression_evaluation_always_raises :
    (PropositionalLogicEngine.evaluate_expression "a AND b" [("a", true), ("b", true)]
      = Except.error "NameError: name true is not defined")
    ∧ (PropositionalLogicEngine.evaluate_expression "a OR b" [("a", false), ("b", false)]
      = Except.error "NameError: name false is not defined")
    ∧ (PropositionalLogicEngine.evaluate_expression "NOT a" [("a", true)]
      = Except.error "NameError: name true is not defined")
    ∧ (PropositionalLogicEngine.evaluate_expression "a IMPLIES b" [("a", true), ("b", false)]
      = Except.error "SyntaxError: invalid syntax")
    ∧ (PropositionalLogicEngine.evaluate_expression "a BICONDITIONAL b" [("a", true), ("b", true)]
      = Except.error "SyntaxError: invalid syntax")
    ∧ (TruthTableGenerator.evaluate_expression "a AND b" [("a", true), ("b", true)]
      = Except.error "NameError: name true is not defined")
    ∧ (TruthTableGenerator.evaluate_expression "a IMPLIES b" [("a", true), ("b", false)]
      = Except.error "SyntaxError: invalid syntax")
    ∧ (∀ a b : Bool, PropositionalLogicEngine.evaluate_implies a b = (!a || b)) :=
  ⟨rfl, rfl, rfl, rfl, rfl, rfl, rfl, by decide⟩

/-- C2: the claim states that the truth table for ["P", "Q"] and "P AND Q" has
4 rows in the order TT, TF, FT, FF with results true, false, false, false.
The code produces the 4 rows in exactly the claimed order, but every result is
None (each row evaluation raises NameError, because the substituted "true"/
"false" are undefined in the eval environment), not the claimed booleans. -/
theorem C2_truth_table_results_are_all_null :
    ((TruthTableGenerator.generate_table ["P", "Q"] "P AND Q").toOption.map
      (fun t => (t.results.map (fun r => r.combination),
                 t.results.map (fun r => r.result)))
      = some ([[true, true], [true, false], [false, true], [false, false]],
              [none, none, none, none]))
    ∧ ((PropositionalLogicEngine.generate_truth_table ["P", "Q"] "P AND Q").results.map
        (fun r => r.result) = [none, none, none, none]) := by
  decide

theorem except_bind_ok {α β : Type} (a : α) (f : α → Except String β) :
    (Except.ok a >>= f) = f a := rfl

theorem except_bind_error {α β : Type} (e : String) (f : α → Except String β) :
    ((Except.error e : Except String α) >>= f : Except String β) = Except.error e := rfl

theorem not_any_not_eq_all (l : List Bool) : (!(l.any fun b => !b)) = l.all (fun b => b) := by
  induction l with
  | nil => rfl
  | cons a t ih => simp [List.any_cons, List.all_cons, ← ih]

theorem not_any_id_eq_all_not (l : List Bool) : (!(l.any fun b => b)) = l.all (fun b => !b) := by
  induction l with
  | nil => rfl
  | cons a t ih => simp [List.any_cons, List.all_cons, ← ih]

/-- C3 counterexample: PropositionalLogicEngine.detect_tautology and
detect_contradiction are computed with the Python all() over the non-None
results, which is vacuously true when every row of the table is an error row;
on expression "P" with variables ["P"] every row errors (the substituted
"true"/"false" are undefined names in eval), and both detectors return true,
where the claim requires false. -/
theorem C3_counterexample :
    (PropositionalLogicEngine.detect_tautology "P" ["P"] = true)
    ∧ (PropositionalLogicEngine.detect_contradiction "P" ["P"] = true)
    ∧ ((PropositionalLogicEngine.generate_truth_table ["P"] "P").results.map
        (fun r => r.result) = [none, none]) := by
  decide

/-- C3 amended: for TautologyDetector.detect_tautology, is_tautology is true
iff every row of the generated table with a non-null result is true and at
least one such row exists (so it is false when every row is an error row), and
symmetrically TautologyDetector.detect_contradiction computes is_contradiction
true iff every non-null row is false and at least one non-null row exists.
(The PropositionalLogicEngine.detect_tautology / detect_contradiction
wrappers instead return true when no non-null row exists — see the
counterexample.) -/
theorem C3_detector_tautology_iff (expression : String) (vars : List String) :
    ((TautologyDetector.detect_tautology expression vars).toOption.map
        (fun r => r.is_tautology)
      = (TruthTableGenerator.generate_table vars expression).toOption.map
          (fun t => ((t.results.filterMap (fun r => r.result)).all (fun b => b))
            && !(t.results.filterMap (fun r => r.result)).isEmpty))
    ∧ ((TautologyDetector.detect_contradiction expression vars).toOption.map
        (fun r => r.is_contradiction)
      = (TruthTableGenerator.generate_table vars expression).toOption.map
          (fun t => ((t.results.filterMap (fun r => r.result)).all (fun b => !b))
            && !(t.results.filterMap (fun r => r.result)).isEmpty)) := by
  constructor
  · cases h : TruthTableGenerator.generate_table vars expression with
    | error e =>
      simp only [TautologyDetector.detect_tautology, h, except_bind_error, Except.toOption,
        Option.map_none']
    | ok t =>
      simp only [TautologyDetector.detect_tautology, h, except_bind_ok, Except.toOption,
        Option.map_some']
      rw [not_any_not_eq_all]
  · cases h : TruthTableGenerator.generate_table vars expression with
    | error e =>
      simp only [TautologyDetector.detect_contradiction, h, except_bind_error, Except.toOption,
        Option.map_none']
    | ok t =>
      simp only [TautologyDetector.detect_contradiction, h, except_bind_ok, Except.toOption,
        Option.map_some']
      rw [not_any_id_eq_all_not]

/-! ## Helper lemmas -/

theorem boolProduct_length (n : Nat) : (boolProduct n).length = 2 ^ n := by
  induction n with
  | zero => rfl
  | succ n ih => simp [boolProduct, ih, Nat.pow_succ]; ring

namespace TruthTableGenerator

theorem tableRows_length (vars : List String) (expression : String) :
    (tableRows vars expression).length = 2 ^ vars.length := by
  simp [tableRows, List.enum_length, boolProduct_length]

theorem generate_table_eq_ok (vars : List String) (expression : String)
    (h : ¬(vars = [] ∨ expression = "")) :
    generate_table vars expression
      = Except.ok (TruthTable.mk vars expression (boolProduct vars.length).length
          (tableRows vars expression)
          ((tableRows vars expression).filter (fun r => r.result = none))) := by
  unfold generate_table
  rw [if_neg h]

theorem generate_table_ok_results (vars : List String) (expression : String)
    (t : TruthTable) (h : generate_table vars expression = Except.ok t) :
    t.results = tableRows vars expression ∧ t.results.length = 2 ^ vars.length := by
  by_cases hv : vars = [] ∨ expression = ""
  · unfold generate_table at h
    rw [if_pos hv] at h
    exact absurd h (by simp)
  · rw [generate_table_eq_ok vars expression hv] at h
    cases h
    exact ⟨rfl, tableRows_length vars expression⟩

end TruthTableGenerator

namespace EquivalenceChecker

theorem filter_isEmpty_eq_not_any {α : Type} (l : List α) (p : α → Bool) :
    (l.filter p).isEmpty = !(l.any p) := by
  induction l with
  | nil => rfl
  | cons a t ih =>
    by_cases h : p a = true
    · simp [List.filter_cons, List.any_cons, h]
    · simp [List.filter_cons, List.any_cons, h, ih]

theorem compareLoop_foldl (res1 res2 : List TruthTableGenerator.TTRow)
    (l : List Nat) (b : Bool) (acc : List EqDifference) :
    l.foldl (compareStep res1 res2) (b, acc)
      = (b && !(l.any (diffCond res1 res2)),
         acc ++ (l.filter (diffCond res1 res2)).map (mkDiff res1 res2)) := by
  induction l generalizing b acc with
  | nil => simp
  | cons a t ih =>
    simp only [List.foldl_cons, List.any_cons, List.filter_cons]
    cases h : diffCond res1 res2 a with
    | true => simp [compareStep, h, ih]
    | false => simp [compareStep, h, ih]

theorem compareLoop_eq (res1 res2 : List TruthTableGenerator.TTRow) :
    compareLoop res1 res2
      = ((specDifferences res1 res2).isEmpty, specDifferences res1 res2) := by
  unfold compareLoop specDifferences
  rw [compareLoop_foldl]
  have hm : ∀ (l : List Nat),
      ((l.filter (diffCond res1 res2)).map (mkDiff res1 res2)).isEmpty
        = (l.filter (diffCond res1 res2)).isEmpty := by
    intro l
    cases l.filter (diffCond res1 res2) <;> rfl
  simp [hm, filter_isEmpty_eq_not_any]

theorem specDifferences_length_le (res1 res2 : List TruthTableGenerator.TTRow) :
    (specDifferences res1 res2).length ≤ res1.length := by
  unfold specDifferences
  rw [List.length_map]
  exact (List.length_filter_le _ _).trans (le_of_eq (List.length_range _))

end EquivalenceChecker

theorem except_eq_ok_of_toOption {α : Type} {x : Except String α} {a : α}
    (h : x.toOption = some a) : x = Except.ok a := by
  cases x with
  | error e => simp [Except.toOption] at h
  | ok b =>
    simp [Except.toOption] at h
    rw [h]

/-- C4 counterexample: the claim says a row pair where either result is null
counts as non-matching, so that with every row null are_equivalent would be
false and the confidence (matching/total)x100 = 0.  In the code a pair is
recorded as a difference only when BOTH results are non-None and unequal: on
check_equivalence("P", "P", ["P"]) every row of both tables is a null (error)
row, yet the checker reports are_equivalent = true, differences_found = 0 and
confidence_level = 100. -/
theorem C4_counterexample :
    ((EquivalenceChecker.check_equivalence "P" "P" ["P"]).toOption.map
        (fun r => (r.are_equivalent, r.differences_found, r.confidence_level))
      = some (true, 0, 100))
    ∧ ((TruthTableGenerator.generate_table ["P"] "P").toOption.map
        (fun t => t.results.map (fun r => r.result)) = some [none, none]) := by
  have h1 : TruthTableGenerator.generate_table ["P"] "P"
      = Except.ok (TruthTableGenerator.TruthTable.mk ["P"] "P" 2
          [TruthTableGenerator.TTRow.mk [true] none
              (some "NameError: name true is not defined") 0,
           TruthTableGenerator.TTRow.mk [false] none
              (some "NameError: name false is not defined") 1]
          [TruthTableGenerator.TTRow.mk [true] none
              (some "NameError: name true is not defined") 0,
           TruthTableGenerator.TTRow.mk [false] none
              (some "NameError: name false is not defined") 1]) :=
    except_eq_ok_of_toOption (by decide)
  constructor
  · simp only [EquivalenceChecker.check_equivalence, h1, except_bind_ok,
      Except.toOption, Option.map_some', EquivalenceChecker.compareLoop_eq]
    norm_num
    constructor
    · decide
    · rw [show (EquivalenceChecker.specDifferences _ _).length = 0 from by decide]
      norm_num
  · decide

/-- C4 amended: in EquivalenceChecker.check_equivalence rows are compared
pairwise by index, but a pair where either result is null is never recorded as
a difference (it counts as matching); the differences are exactly the index
pairs with both results non-null and unequal, are_equivalent is true iff that
list is empty, confidence = ((total rows - differing pairs) / total rows) x
100, and combinations_checked is the row count of the first table. -/
theorem C4_null_pairs_match (expr1 expr2 : String) (vars : List String) :
    (EquivalenceChecker.check_equivalence expr1 expr2 vars).toOption.map
        (fun r => (r.are_equivalent, r.differences, r.differences_found,
                   r.confidence_level, r.combinations_checked))
      = (TruthTableGenerator.generate_table vars expr1).toOption.bind (fun t1 =>
          (TruthTableGenerator.generate_table vars expr2).toOption.map (fun t2 =>
            ((EquivalenceChecker.specDifferences t1.results t2.results).isEmpty,
             EquivalenceChecker.specDifferences t1.results t2.results,
             (EquivalenceChecker.specDifferences t1.results t2.results).length,
             (((t1.results.length
                  - (EquivalenceChecker.specDifferences t1.results t2.results).length : Nat) : ℚ)
                / ((t1.results.length : Nat) : ℚ)) * 100,
             t1.results.length))) := by
  cases h1 : TruthTableGenerator.generate_table vars expr1 with
  | error e =>
    simp [EquivalenceChecker.check_equivalence, h1, except_bind_error, Except.toOption]
  | ok t1 =>
    cases h2 : TruthTableGenerator.generate_table vars expr2 with
    | error e =>
      simp [EquivalenceChecker.check_equivalence, h1, h2, except_bind_error, except_bind_ok,
        Except.toOption]
    | ok t2 =>
      have hlen := (TruthTableGenerator.generate_table_ok_results vars expr1 t1 h1).2
      have hpos : 0 < t1.results.length := by
        rw [hlen]
        exact Nat.pos_pow_of_pos _ (by omega)
      simp only [EquivalenceChecker.check_equivalence, h1, h2, except_bind_ok,
        Except.toOption, Option.map_some', Option.some_bind,
        EquivalenceChecker.compareLoop_eq, if_pos hpos]

/-- C10: every record returned by EquivalenceChecker.check_equivalence is
internally consistent: are_equivalent holds iff differences_found = 0, which
holds iff confidence_level = 100, and combinations_checked equals the row
count of the first table (2^|variables|).  (Python float arithmetic is
modelled as exact rationals; all confidence values arising here are dyadic.) -/
theorem C10_record_consistency (expr1 expr2 : String) (vars : List String)
    (r : EquivalenceChecker.CheckResult)
    (h : (EquivalenceChecker.check_equivalence expr1 expr2 vars).toOption = some r) :
    (r.are_equivalent = true ↔ r.differences_found = 0)
    ∧ (r.differences_found = 0 ↔ r.confidence_level = 100)
    ∧ r.combinations_checked = 2 ^ vars.length := by
  cases h1 : TruthTableGenerator.generate_table vars expr1 with
  | error e =>
    rw [EquivalenceChecker.check_equivalence] at h
    rw [h1, except_bind_error] at h
    simp [Except.toOption] at h
  | ok t1 =>
    cases h2 : TruthTableGenerator.generate_table vars expr2 with
    | error e =>
      rw [EquivalenceChecker.check_equivalence] at h
      rw [h1, except_bind_ok, h2, except_bind_error] at h
      simp [Except.toOption] at h
    | ok t2 =>
      have hlen := (TruthTableGenerator.generate_table_ok_results vars expr1 t1 h1).2
      have hpos : 0 < t1.results.length := by
        rw [hlen]
        exact Nat.pos_pow_of_pos _ (by omega)
      have hdle : (EquivalenceChecker.specDifferences t1.results t2.results).length
          ≤ t1.results.length := EquivalenceChecker.specDifferences_length_le _ _
      rw [EquivalenceChecker.check_equivalence] at h
      rw [h1, except_bind_ok, h2, except_bind_ok] at h
      simp only [EquivalenceChecker.compareLoop_eq, Except.toOption, Option.some_inj] at h
      subst h
      simp only [if_pos hpos]
      refine ⟨?_, ?_, ?_⟩
      · simp [List.isEmpty_iff, List.length_eq_zero]
      · have htQ : ((t1.results.length : Nat) : ℚ) ≠ 0 := by
          exact_mod_cast Nat.pos_iff_ne_zero.mp hpos
        constructor
        · intro hd
          rw [hd]
          rw [Nat.sub_zero, div_mul_eq_mul_div, mul_comm, mul_div_assoc, div_self htQ,
            mul_one]
        · intro hc
          by_contra hd
          have hlt : t1.results.length
              - (EquivalenceChecker.specDifferences t1.results t2.results).length
              < t1.results.length := by omega
          have : (((t1.results.length
              - (EquivalenceChecker.specDifferences t1.results t2.results).length : Nat) : ℚ)
                / ((t1.results.length : Nat) : ℚ)) * 100 < 100 := by
            have hfrac : (((t1.results.length
                - (EquivalenceChecker.specDifferences t1.results t2.results).length : Nat) : ℚ)
                  / ((t1.results.length : Nat) : ℚ)) < 1 := by
              rw [div_lt_one (by exact_mod_cast hpos)]
              exact_mod_cast hlt
            nlinarith
          rw [hc] at this
          exact lt_irrefl _ this
      · rw [hlen]

/-- C10 witness: the consistency theorem applied to the concrete record of
check_equivalence("P", "P", ["P"]). -/
theorem C10_witness :
    ((EquivalenceChecker.check_equivalence "P" "P" ["P"]).toOption
        = some (EquivalenceChecker.CheckResult.mk true 100 0 [] 2))
    ∧ (((EquivalenceChecker.CheckResult.mk true 100 0 [] 2).are_equivalent = true
          ↔ (EquivalenceChecker.CheckResult.mk true 100 0 [] 2).differences_found = 0)
      ∧ ((EquivalenceChecker.CheckResult.mk true 100 0 [] 2).differences_found = 0
          ↔ (EquivalenceChecker.CheckResult.mk true 100 0 [] 2).confidence_level = 100)
      ∧ (EquivalenceChecker.CheckResult.mk true 100 0 [] 2).combinations_checked
          = 2 ^ (["P"] : List String).length) := by
  have hyp : (EquivalenceChecker.check_equivalence "P" "P" ["P"]).toOption
      = some (EquivalenceChecker.CheckResult.mk true 100 0 [] 2) := by
    have h1 : TruthTableGenerator.generate_table ["P"] "P"
        = Except.ok (TruthTableGenerator.TruthTable.mk ["P"] "P" 2
            [TruthTableGenerator.TTRow.mk [true] none
                (some "NameError: name true is not defined") 0,
             TruthTableGenerator.TTRow.mk [false] none
                (some "NameError: name false is not defined") 1]
            [TruthTableGenerator.TTRow.mk [true] none
                (some "NameError: name true is not defined") 0,
             TruthTableGenerator.TTRow.mk [false] none
                (some "NameError: name false is not defined") 1]) :=
      except_eq_ok_of_toOption (by decide)
    simp only [EquivalenceChecker.check_equivalence, h1, except_bind_ok,
      Except.toOption, EquivalenceChecker.compareLoop_eq]
    rw [show EquivalenceChecker.specDifferences
        [TruthTableGenerator.TTRow.mk [true] none
            (some "NameError: name true is not defined") 0,
         TruthTableGenerator.TTRow.mk [false] none
            (some "NameError: name false is not defined") 1]
        [TruthTableGenerator.TTRow.mk [true] none
            (some "NameError: name true is not defined") 0,
         TruthTableGenerator.TTRow.mk [false] none
            (some "NameError: name false is not defined") 1] = [] from by decide]
    norm_num
  exact ⟨hyp, C10_record_consistency "P" "P" ["P"] _ hyp⟩

theorem natToRow_succ_lt (n i : Nat) (h : i < 2 ^ n) :
    natToRow (n + 1) i = true :: natToRow n i := by
  unfold natToRow
  rw [List.range_succ_eq_map, List.map_cons, List.map_map]
  congr 1
  · have he : n + 1 - 1 - 0 = n := by omega
    rw [he, Nat.div_eq_of_lt h]
    rfl
  · apply List.map_congr_left
    intro j hj
    simp only [Function.comp]
    have he : n + 1 - 1 - (j + 1) = n - 1 - j := by omega
    rw [he]

theorem natToRow_succ_ge (n i : Nat) (h : i < 2 ^ n) :
    natToRow (n + 1) (2 ^ n + i) = false :: natToRow n i := by
  unfold natToRow
  rw [List.range_succ_eq_map, List.map_cons, List.map_map]
  congr 1
  · have he : n + 1 - 1 - 0 = n := by omega
    rw [he, Nat.add_comm, Nat.add_div_right _ (Nat.pos_pow_of_pos n (by omega)),
      Nat.div_eq_of_lt h]
    rfl
  · apply List.map_congr_left
    intro j hj
    rw [List.mem_range] at hj
    simp only [Function.comp]
    have he : n + 1 - 1 - (j + 1) = n - 1 - j := by omega
    rw [he]
    have hk : n - 1 - j < n := by omega
    have hsplit : (2:Nat) ^ n = 2 ^ (n - 1 - j) * 2 ^ (n - (n - 1 - j)) := by
      rw [← pow_add]
      congr 1
      omega
    rw [hsplit, Nat.mul_add_div (Nat.pos_pow_of_pos _ (by omega))]
    have h2 : (2:Nat) ^ (n - (n - 1 - j)) = 2 * 2 ^ (n - (n - 1 - j) - 1) := by
      rw [← pow_succ']
      congr 1
      omega
    rw [h2, Nat.mul_add_mod]

theorem boolProduct_eq_natToRow (n : Nat) :
    boolProduct n = (List.range (2 ^ n)).map (natToRow n) := by
  induction n with
  | zero => rfl
  | succ n ih =>
    have hp : (2:Nat) ^ (n + 1) = 2 ^ n + 2 ^ n := by
      rw [pow_succ]
      omega
    rw [hp, List.range_add, List.map_append, List.map_map]
    show (boolProduct n).map (fun l => true :: l) ++ (boolProduct n).map (fun l => false :: l) = _
    rw [ih]
    congr 1
    · rw [List.map_map]
      apply List.map_congr_left
      intro i hi
      rw [List.mem_range] at hi
      exact (natToRow_succ_lt n i hi).symm.trans rfl
    · rw [List.map_map]
      apply List.map_congr_left
      intro i hi
      rw [List.mem_range] at hi
      simp only [Function.comp]
      exact (natToRow_succ_ge n i hi).symm

theorem boolProduct_getD (n i : Nat) (h : i < 2 ^ n) :
    (boolProduct n).getD i [] = natToRow n i := by
  rw [boolProduct_eq_natToRow, List.getD_eq_getElem?_getD, List.getElem?_map,
    List.getElem?_range h]
  rfl

theorem natToRow_zero (n : Nat) : natToRow n 0 = List.replicate n true := by
  apply List.eq_replicate_iff.2
  constructor
  · simp [natToRow]
  · intro b hb
    rw [natToRow, List.mem_map] at hb
    obtain ⟨j, _, hj⟩ := hb
    simp [Nat.zero_div] at hj
    exact hj

theorem all_ones_div (n k : Nat) (hk : k < n) : (2 ^ n - 1) / 2 ^ k = 2 ^ (n - k) - 1 := by
  apply Nat.div_eq_of_lt_le
  · rw [Nat.sub_mul, one_mul, ← pow_add]
    have he : n - k + k = n := by omega
    rw [he]
    have h1 : (1:Nat) ≤ 2 ^ k := Nat.one_le_two_pow
    omega
  · have h2 : (1:Nat) ≤ 2 ^ (n - k) := Nat.one_le_two_pow
    rw [Nat.sub_add_cancel h2, ← pow_add]
    have he : n - k + k = n := by omega
    rw [he]
    have h3 : (1:Nat) ≤ 2 ^ n := Nat.one_le_two_pow
    omega

theorem natToRow_all_ones (n : Nat) : natToRow n (2 ^ n - 1) = List.replicate n false := by
  apply List.eq_replicate_iff.2
  constructor
  · simp [natToRow]
  · intro b hb
    rw [natToRow, List.mem_map] at hb
    obtain ⟨j, hjm, hj⟩ := hb
    rw [List.mem_range] at hjm
    have hk : n - 1 - j < n := by omega
    rw [all_ones_div n (n - 1 - j) hk] at hj
    have h2 : (2:Nat) ^ (n - (n - 1 - j)) = 2 * 2 ^ (n - (n - 1 - j) - 1) := by
      rw [← pow_succ']
      congr 1
      omega
    rw [h2] at hj
    have h3 : (1:Nat) ≤ 2 ^ (n - (n - 1 - j) - 1) := Nat.one_le_two_pow
    rw [← hj]
    have h4 : (2 * 2 ^ (n - (n - 1 - j) - 1) - 1) % 2 = 1 := by omega
    rw [h4]
    rfl

theorem boolProduct_complete (n : Nat) :
    ∀ l : List Bool, l.length = n → l ∈ boolProduct n := by
  induction n with
  | zero =>
    intro l hl
    rw [List.length_eq_zero] at hl
    subst hl
    simp [boolProduct]
  | succ n ih =>
    intro l hl
    cases l with
    | nil => simp at hl
    | cons b t =>
      have ht : t.length = n := by simpa using hl
      show b :: t ∈ (boolProduct n).map (fun l => true :: l)
        ++ (boolProduct n).map (fun l => false :: l)
      cases b
      · exact List.mem_append_right _ (List.mem_map_of_mem _ (ih t ht))
      · exact List.mem_append_left _ (List.mem_map_of_mem _ (ih t ht))

theorem boolProduct_nodup (n : Nat) : (boolProduct n).Nodup := by
  induction n with
  | zero => simp [boolProduct]
  | succ n ih =>
    show ((boolProduct n).map (fun l => true :: l)
      ++ (boolProduct n).map (fun l => false :: l)).Nodup
    apply List.Nodup.append
    · exact ih.map (fun x y h => by injection h)
    · exact ih.map (fun x y h => by injection h)
    · intro a ha hb
      rw [List.mem_map] at ha hb
      obtain ⟨x, _, hx⟩ := ha
      obtain ⟨y, _, hy⟩ := hb
      rw [← hx] at hy
      injection hy with h1 h2
      exact Bool.noConfusion h1

theorem evalRow_combination (vars : List String) (expression : String) (ic : Nat × List Bool) :
    (TruthTableGenerator.evalRow vars expression ic).combination = ic.2 := by
  unfold TruthTableGenerator.evalRow
  cases TruthTableGenerator.evaluate_expression expression (vars.zip ic.2) <;> rfl

theorem generate_table_combinations (vars : List String) (expression : String) :
    (TruthTableGenerator.generate_table vars expression).toOption.map
        (fun t => t.results.map (fun r => r.combination))
      = (TruthTableGenerator.generate_table vars expression).toOption.map
          (fun _ => boolProduct vars.length) := by
  by_cases hv : vars = [] ∨ expression = ""
  · unfold TruthTableGenerator.generate_table
    rw [if_pos hv]
    rfl
  · rw [TruthTableGenerator.generate_table_eq_ok vars expression hv]
    simp only [Except.toOption, Option.map_some']
    congr 1
    show (TruthTableGenerator.tableRows vars expression).map (fun r => r.combination)
      = boolProduct vars.length
    unfold TruthTableGenerator.tableRows
    rw [List.map_map]
    have hc : ((fun r => TruthTableGenerator.TTRow.combination r)
        ∘ TruthTableGenerator.evalRow vars expression) = Prod.snd := by
      funext ic
      exact evalRow_combination vars expression ic
    rw [hc, List.enum_map_snd]

/-- C5: truth-table generation enumerates all 2^n assignments (n = number of
variables) with itertools.product([True, False], repeat=n): the list of
enumerated combinations equals binary counting (row i maps variable j to true
exactly when bit (n-1-j) of i is 0, so the first variable toggles slowest and
true precedes false at every position), it has length 2^n, no duplicates, and
contains every length-n assignment; row 0 is all-true and row 2^n - 1 is
all-false; and the rows of every successfully generated table carry exactly
this combination list in this order. -/
theorem C5_canonical_order (n : Nat) (vars : List String) (expression : String) :
    boolProduct n = (List.range (2 ^ n)).map (natToRow n)
    ∧ (boolProduct n).length = 2 ^ n
    ∧ (boolProduct n).Nodup
    ∧ (∀ l : List Bool, l.length = n → l ∈ boolProduct n)
    ∧ (boolProduct n).getD 0 [] = List.replicate n true
    ∧ (boolProduct n).getD (2 ^ n - 1) [] = List.replicate n false
    ∧ ((TruthTableGenerator.generate_table vars expression).toOption.map
        (fun t => t.results.map (fun r => r.combination))
      = (TruthTableGenerator.generate_table vars expression).toOption.map
          (fun _ => boolProduct vars.length)) := by
  refine ⟨boolProduct_eq_natToRow n, boolProduct_length n, boolProduct_nodup n,
    boolProduct_complete n, ?_, ?_, generate_table_combinations vars expression⟩
  · rw [boolProduct_getD n 0 (Nat.pos_pow_of_pos n (by omega)), natToRow_zero]
  · rw [boolProduct_getD n (2 ^ n - 1) (by
      have := Nat.one_le_two_pow (n := n)
      omega), natToRow_all_ones]

theorem rowStoresOutcome_evalRow (vars : List String) (expression : String)
    (ic : Nat × List Bool) :
    rowStoresOutcome vars expression (TruthTableGenerator.evalRow vars expression ic) = true := by
  unfold rowStoresOutcome TruthTableGenerator.evalRow
  cases h : TruthTableGenerator.evaluate_expression expression (vars.zip ic.2) with
  | ok b => simp [h]
  | error e => simp [h]

/-- C6: for every variable list and expression, a successfully generated truth
table has exactly 2^n rows (n = number of variables), and every row stores the
outcome of its own evaluation — in particular a row whose evaluation raised
(for example because the expression references a name outside the variable
list) stores the error and a null result instead of aborting generation.  The
concrete conjunct exhibits this on ["P"] with "P AND Q": both rows are kept,
with null results. -/
theorem C6_per_row_errors_tolerated (vars : List String) (expression : String) :
    ((TruthTableGenerator.generate_table vars expression).toOption.map
        (fun t => decide (t.results.length = 2 ^ vars.length)
          && t.results.all (rowStoresOutcome vars expression))
      = (TruthTableGenerator.generate_table vars expression).toOption.map (fun _ => true))
    ∧ ((TruthTableGenerator.generate_table ["P"] "P AND Q").toOption.map
        (fun t => (t.results.length, t.results.map (fun r => r.result)))
      = some (2, [none, none])) := by
  constructor
  · by_cases hv : vars = [] ∨ expression = ""
    · unfold TruthTableGenerator.generate_table
      rw [if_pos hv]
      rfl
    · rw [TruthTableGenerator.generate_table_eq_ok vars expression hv]
      simp only [Except.toOption, Option.map_some', Option.some_inj]
      rw [TruthTableGenerator.tableRows_length]
      simp only [decide_eq_true_eq, decide_True, Bool.true_and]
      rw [List.all_eq_true]
      intro r hr
      rw [TruthTableGenerator.tableRows, List.mem_map] at hr
      obtain ⟨ic, _, hic⟩ := hr
      rw [← hic]
      exact rowStoresOutcome_evalRow vars expression ic
  · decide

/-- C7 counterexample: the claim says truth-table generation rejects an empty
variable list or empty expression before producing any rows, but
PropositionalLogicEngine.generate_truth_table performs no such validation: on
an empty variable list it returns a 1-row table (the empty combination) and on
an empty expression a full 2-row table, never failing. -/
theorem C7_counterexample :
    ((PropositionalLogicEngine.generate_truth_table [] "P").results.length = 1)
    ∧ ((PropositionalLogicEngine.generate_truth_table ["P"] "").results.length = 2)
    ∧ ((PropositionalLogicEngine.generate_truth_table [] "P").results.map
        (fun r => r.result) = [none]) := by
  decide

/-- C7 amended: TruthTableGenerator.generate_table rejects an empty variable
list or an empty expression with a ValueError before producing any rows;
PropositionalLogicEngine.generate_truth_table performs no validation and
always returns a table of 2^n rows. -/
theorem C7_validation (vars : List String) (expression : String)
    (h : vars = [] ∨ expression = "") :
    TruthTableGenerator.generate_table vars expression
      = Except.error "Variables list and expression cannot be empty"
    ∧ (PropositionalLogicEngine.generate_truth_table vars expression).results.length
      = 2 ^ vars.length := by
  constructor
  · unfold TruthTableGenerator.generate_table
    rw [if_pos h]
  · unfold PropositionalLogicEngine.generate_truth_table
    simp [boolProduct_length]

/-- C7 witness: the validation theorem applied at the empty variable list. -/
theorem C7_witness :
    (([] : List String) = [] ∨ "P" = "")
    ∧ (TruthTableGenerator.generate_table [] "P"
        = Except.error "Variables list and expression cannot be empty"
      ∧ (PropositionalLogicEngine.generate_truth_table [] "P").results.length
        = 2 ^ ([] : List String).length) :=
  ⟨Or.inl rfl, C7_validation [] "P" (Or.inl rfl)⟩

theorem history_after_length (entry : PropositionalLogicEngine.LogEntry) (k : Nat) :
    (PropositionalLogicEngine.history_after entry k).length = k := by
  have aux : ∀ (l : List Nat) (acc : List PropositionalLogicEngine.LogEntry),
      (l.foldl (fun h _ => PropositionalLogicEngine.log_operation h entry) acc).length
        = acc.length + l.length := by
    intro l
    induction l with
    | nil => intro acc; simp
    | cons a t ih =>
      intro acc
      rw [List.foldl_cons, ih]
      simp [PropositionalLogicEngine.log_operation]
      omega
  unfold PropositionalLogicEngine.history_after
  rw [aux]
  simp

/-- C8 counterexample: there is no capacity bound N: the operations history
after k logged operations has exactly k entries, so for every N the history
after N + 1 operations exceeds N — operations_history is a plain append with
no eviction. -/
theorem C8_counterexample :
    ((PropositionalLogicEngine.history_after
        (PropositionalLogicEngine.LogEntry.mk "AND" [true, true] true) 5).length = 5)
    ∧ ¬ (∃ N : Nat, ∀ k : Nat, (PropositionalLogicEngine.history_after
        (PropositionalLogicEngine.LogEntry.mk "AND" [true, true] true) k).length ≤ N) := by
  constructor
  · decide
  · rintro ⟨N, hN⟩
    have h1 := hN (N + 1)
    rw [history_after_length] at h1
    omega

/-- C8 amended: _log_operation is an unbounded append — each record is
appended at the tail, the history grows by exactly one entry per operation,
and after k operations on a fresh engine the history has exactly k entries;
nothing is ever evicted. -/
theorem C8_unbounded_append (history : List PropositionalLogicEngine.LogEntry)
    (entry : PropositionalLogicEngine.LogEntry) (k : Nat) :
    PropositionalLogicEngine.log_operation history entry = history ++ [entry]
    ∧ (PropositionalLogicEngine.log_operation history entry).length = history.length + 1
    ∧ (PropositionalLogicEngine.history_after entry k).length = k := by
  refine ⟨rfl, ?_, history_after_length entry k⟩
  simp [PropositionalLogicEngine.log_operation]
